import Mathlib

/-!
Shallow embedding of the cinetour backend order-to-video pipeline
(src/app/routers/upload.py, src/app/routers/admin.py,
src/app/services/runway_service.py, src/app/services/prompt_generator.py,
data model from src/app/models/database.py).

External effects (the OpenAI and RunwayML providers, Dropbox, the local
filesystem, the wall clock) are modelled as explicit input parameters so
that every handler is a pure function from a request, an external world
and a database state to a new database state and a response.
-/

namespace CineTour

/-- Internal video status vocabulary, database.py: queued|processing|succeeded|failed. -/
inductive VStatus where
  | queued
  | processing
  | succeeded
  | failed
deriving DecidableEq, Repr

/-- Row of the orders table (database.py, class Order).
Fields irrelevant to the claims (timestamps kept as the abstract clock,
parent_order_id unused by the embedded handlers) are omitted. -/
structure OrderRow where
  id : Nat
  userId : Option Nat
  package : String
  addOns : Option String
deriving DecidableEq, Repr

/-- Row of the uploaded_images table (database.py, class UploadedImage).
content is the raw file bytes, each byte a Nat below 256. -/
structure ImageRow where
  id : Nat
  orderId : Nat
  filename : String
  content : List Nat
  prompt : Option String
  videoPath : Option String
  videoUrl : Option String
  videoGeneratedAt : Option Nat
deriving DecidableEq, Repr

/-- Row of the videos table (database.py, class Video). The userId field is
written by the routers (upload.py line 234, admin.py line 390); the
database.py snapshot under src/ predates that column, the routers are the
authority for what is stored. -/
structure VideoRow where
  id : Nat
  userId : Option Nat
  imageId : Nat
  prompt : String
  runwayJobId : Option String
  status : VStatus
  videoUrl : Option String
  videoPath : Option String
  parentVideoId : Option Nat
  iteration : Nat
deriving DecidableEq, Repr

/-- Row of the feedback table (database.py, class Feedback). -/
structure FeedbackRow where
  id : Nat
  videoId : Nat
  feedbackText : String
  newPrompt : String
deriving DecidableEq, Repr

/-- Notification row as constructed by create_notification (upload.py lines
103 to 112); the model class is absent from the database.py snapshot. -/
structure NotificationRow where
  userId : Option Nat
  ntype : String
  message : String
deriving DecidableEq, Repr

/-- FinalVideo row as constructed by admin_upload_final_video (admin.py lines
400 to 406); the model class is absent from the database.py snapshot. -/
structure FinalVideoRow where
  userId : Nat
  imageId : Nat
  dropboxPath : String
  videoUrl : String
deriving DecidableEq, Repr

/-- The relational store. Auto-increment ids are made explicit; clock stands
for datetime.utcnow / time.time during the operation. -/
structure DB where
  orders : List OrderRow
  images : List ImageRow
  videos : List VideoRow
  feedbacks : List FeedbackRow
  notifications : List NotificationRow
  finalVideos : List FinalVideoRow
  nextOrderId : Nat
  nextImageId : Nat
  nextVideoId : Nat
  nextFeedbackId : Nat
  clock : Nat
deriving DecidableEq, Repr

/-- Empty store. -/
def DB.empty : DB :=
  { orders := [], images := [], videos := [], feedbacks := [],
    notifications := [], finalVideos := [],
    nextOrderId := 1, nextImageId := 1, nextVideoId := 1, nextFeedbackId := 1,
    clock := 0 }

/-- Outcome of an HTTP handler: a value or an HTTPException with a status
code and detail string. -/
inductive Api (α : Type) where
  | ok (a : α)
  | httpError (status : Nat) (detail : String)
deriving DecidableEq, Repr

/-- True when the handler returned normally. -/
def Api.isOk {α : Type} : Api α → Bool
  | .ok _ => true
  | .httpError _ _ => false

/-- SQLAlchemy query ... filter(id == i).first() on each table. -/
def DB.findOrder (db : DB) (i : Nat) : Option OrderRow :=
  db.orders.find? (fun o => o.id = i)

/-- Lookup of an uploaded image by primary key. -/
def DB.findImage (db : DB) (i : Nat) : Option ImageRow :=
  db.images.find? (fun r => r.id = i)

/-- Lookup of a video by primary key. -/
def DB.findVideo (db : DB) (i : Nat) : Option VideoRow :=
  db.videos.find? (fun v => v.id = i)

/-- In-place update of one image row (ORM attribute assignment plus commit). -/
def DB.updateImage (db : DB) (i : Nat) (f : ImageRow → ImageRow) : DB :=
  { db with images := db.images.map (fun r => if r.id = i then f r else r) }

/-- In-place update of one video row. -/
def DB.updateVideo (db : DB) (i : Nat) (f : VideoRow → VideoRow) : DB :=
  { db with videos := db.videos.map (fun v => if v.id = i then f v else v) }

/-! ## Base64 and the local filesystem -/

/-- Character of the standard base64 alphabet at index n. -/
def base64Char (n : Nat) : Char :=
  let table := "ABCDEFGHIJKLMNOPQRSTUVWXYZabcdefghijklmnopqrstuvwxyz0123456789+/"
  table.toList.getD n 'A'

/-- Standard base64 of a byte list (base64.b64encode in the source). -/
def base64Encode : List Nat → String
  | [] => ""
  | [a] =>
    String.mk [base64Char (a / 4), base64Char (a % 4 * 16)] ++ "=="
  | [a, b] =>
    String.mk [base64Char (a / 4), base64Char (a % 4 * 16 + b / 16),
               base64Char (b % 16 * 4)] ++ "="
  | a :: b :: c :: rest =>
    String.mk [base64Char (a / 4), base64Char (a % 4 * 16 + b / 16),
               base64Char (b % 16 * 4 + c / 64), base64Char (c % 64)]
      ++ base64Encode rest

/-- One file on the server disk: its path, bytes and, when PIL can decode it
as an image, its pixel dimensions. -/
structure FsEntry where
  path : String
  content : List Nat
  dims : Option (Nat × Nat)
deriving DecidableEq, Repr

/-- The server-local filesystem as a finite list of files. -/
def FileSystem : Type := List FsEntry

/-- Opening a path for reading: some entry when the file exists. -/
def fsRead (fs : FileSystem) (p : String) : Option FsEntry :=
  List.find? (fun e => e.path = p) fs

/-- Python str.strip with no argument: whitespace removed from both ends. -/
def pyStrip (s : String) : String :=
  String.mk (((s.data.dropWhile Char.isWhitespace).reverse.dropWhile Char.isWhitespace).reverse)

/-- Python str.lower restricted to the ASCII range the handlers compare. -/
def pyLower (s : String) : String :=
  String.mk (s.data.map Char.toLower)

/-! ## Prompt engine (src/app/services/prompt_generator.py)

The two functions are embedded over an explicit environment: whether the
OpenAI credentials are set, whether the image file is readable, and the
text returned by the chat-completions call (none when the call raised).
-/

/-- Fallback returned by generate_cinematic_prompt_from_image when the
vision call fails (prompt_generator.py line 77). -/
def fallbackCinematicPrompt : String :=
  "Short, cinematic shot with warm lighting and smooth, elegant camera movement."

/-- Fallback merge used by improve_prompt_with_feedback (prompt_generator.py
lines 90 and 113): f-string concatenation then str.strip. -/
def mergedFallback (originalPrompt feedbackText : String) : String :=
  pyStrip (originalPrompt ++ " Incorporate this revision: " ++ feedbackText ++ ".")

/-- generate_cinematic_prompt_from_image (prompt_generator.py lines 23 to 77).
credsSet: both OPENAI_API_KEY and OPENAI_PROJECT are nonempty (lines 27 to
31 raise RuntimeError otherwise, outside any handler). fileReadable: the
open inside _encode_image_to_data_url on line 17 succeeds (line 35 is also
outside the try block, so an unreadable path raises). api: the content
string produced by the guarded chat call, none when that call raised. -/
def generate_cinematic_prompt_from_image (credsSet fileReadable : Bool)
    (api : Option String) : Except String String :=
  if credsSet = false then
    .error "Missing OpenAI credentials. Please set OPENAI_API_KEY and OPENAI_PROJECT."
  else if fileReadable = false then
    .error "image file is not readable"
  else
    match api with
    | some content => .ok (pyStrip content)
    | none => .ok fallbackCinematicPrompt

/-- improve_prompt_with_feedback (prompt_generator.py lines 80 to 114): with
credentials missing it falls back to the deterministic merge before any
client is built; otherwise the chat call is guarded by a blanket except
that also falls back to the merge. The function is total. -/
def improve_prompt_with_feedback (credsSet : Bool)
    (originalPrompt feedbackText : String) (api : Option String) : String :=
  if credsSet = false then
    mergedFallback originalPrompt feedbackText
  else
    match api with
    | some content => pyStrip content
    | none => mergedFallback originalPrompt feedbackText

/-! ## Background batch pipeline (upload.py, process_videos_for_order)

Each file path handed to the background task is modelled as an ImgFile:
the on-disk facts about it and the external-world outcomes of the calls
the pipeline will make for it.
-/

/-- Result of client.image_to_video.create(...).wait_for_task_output() for
one image: the SDK either raises, or yields a task with an id and a
(possibly empty) output list. -/
inductive RunwaySdkOutcome where
  | exn
  | task (taskId : String) (output : List String)
deriving DecidableEq, Repr

/-- One entry of the file_paths list given to process_videos_for_order,
together with the external world it will meet: readable is the success of
the PIL Image.open and the following open/read (upload.py lines 166 and
173); width and height are the PIL dimensions; descApi is the OpenAI
response inside generate_cinematic_prompt_from_image (none when that call
raised); runway is the SDK outcome in the live path; dropboxOk is the
outcome of upload_video_to_dropbox for this video. -/
structure ImgFile where
  filename : String
  readable : Bool
  width : Nat
  height : Nat
  content : List Nat
  descApi : Option String
  runway : RunwaySdkOutcome
  dropboxOk : Bool
deriving DecidableEq, Repr

/-- create_notification (upload.py lines 103 to 112). -/
def create_notification (db : DB) (userId : Option Nat) (ntype message : String) : DB :=
  { db with notifications := db.notifications ++ [{ userId := userId, ntype := ntype, message := message }] }

/-- Status, video_url and task_id computed for one image by the generation
section of process_videos_for_order (upload.py lines 199 to 230). -/
def batchGenerationResult (mock : Bool) (imgId : Nat) (clock : Nat) (f : ImgFile) :
    VStatus × Option String × Option String :=
  if mock then
    -- upload.py line 201: mock path fabricates a job id, url None, succeeded
    (VStatus.succeeded, none, some ("mock-job-" ++ toString clock))
  else
    match f.runway with
    | .exn =>
      -- upload.py lines 228 to 230: blanket except marks this image failed
      (VStatus.failed, none, none)
    | .task taskId output =>
      match output with
      | [] =>
        -- upload.py lines 213 to 214: raise, caught by the same except
        (VStatus.failed, none, none)
      | _ :: _ =>
        -- upload.py lines 219 to 226: dropbox re-upload decides the outcome
        if f.dropboxOk then
          (VStatus.succeeded, some ("dropbox:///videos/video_" ++ toString imgId ++ ".mp4"), some taskId)
        else
          (VStatus.failed, none, some taskId)

/-- Body of the per-image loop of process_videos_for_order (upload.py lines
162 to 263) for one readable image, after the UploadedImage row has been
inserted. -/
def processOneReadable (mock : Bool) (o : OrderRow) (f : ImgFile) (imgId : Nat)
    (promptText : String) (db : DB) : DB :=
  -- upload.py line 192: aspect chosen from the PIL dimensions, w >= h is wide
  let _aspect : String := if f.width ≥ f.height then "1280:720" else "720:1280"
  let (st, videoUrl, taskId) := batchGenerationResult mock imgId db.clock f
  -- upload.py lines 233 to 244: the Video row is inserted with these fields
  let vrow : VideoRow :=
    { id := db.nextVideoId, userId := o.userId, imageId := imgId,
      prompt := promptText,
      runwayJobId := taskId, status := st, videoUrl := videoUrl,
      videoPath := none, parentVideoId := none, iteration := 1 }
  let db := { db with videos := db.videos ++ [vrow], nextVideoId := db.nextVideoId + 1 }
  -- upload.py lines 247 to 249: mirror written unconditionally, also on failure
  let db := db.updateImage imgId (fun r =>
    { r with videoUrl := videoUrl, videoGeneratedAt := some db.clock })
  if st = VStatus.succeeded then
    create_notification db o.userId "video_created"
      ("Video created for Order " ++ toString o.id ++ " (" ++ f.filename ++ ")")
  else
    db

/-- Insertion and commit of the UploadedImage row (upload.py lines 177 to
185). -/
def insertImageRow (o : OrderRow) (f : ImgFile) (db : DB) : DB :=
  { db with
      images := db.images ++
        [{ id := db.nextImageId, orderId := o.id, filename := f.filename,
           content := f.content, prompt := none, videoPath := none,
           videoUrl := none, videoGeneratedAt := none }],
      nextImageId := db.nextImageId + 1 }

/-- Persisting the generated prompt on the image row (upload.py lines 188
to 190). -/
def setImagePrompt (db : DB) (imgId : Nat) (p : String) : DB :=
  db.updateImage imgId (fun r => { r with prompt := some p })

/-- The loop over file_paths in process_videos_for_order (upload.py lines
162 to 263). An unreadable image hits the continue on line 171 and leaves
no rows. The prompt call on line 188 is not guarded: were
generate_cinematic_prompt_from_image to raise, the exception would abort
the rest of the batch, which the error branch mirrors; with credentials
present (guaranteed by the import-time check of prompt_generator.py lines
9 to 10) and the file readable it always returns. -/
def processImages (mock : Bool) (o : OrderRow) : List ImgFile → DB → DB
  | [], db => db
  | f :: rest, db =>
    if f.readable = false then
      processImages mock o rest db
    else
      match generate_cinematic_prompt_from_image true true f.descApi with
      | .error _ => insertImageRow o f db
      | .ok promptText =>
        processImages mock o rest
          (processOneReadable mock o f db.nextImageId promptText
            (setImagePrompt (insertImageRow o f db) db.nextImageId promptText))

/-- process_videos_for_order (upload.py lines 153 to 267): a missing order
returns with no effect, otherwise each file is processed in order. -/
def process_videos_for_order (mock : Bool) (orderId : Nat) (files : List ImgFile) (db : DB) : DB :=
  match db.findOrder orderId with
  | none => db
  | some o => processImages mock o files db

/-! ## Upload endpoint (upload.py, upload_photos) -/

/-- One entry of the files form field: its name and whether copying it to
IMAGES_DIR succeeds. -/
structure UploadFileIn where
  filename : String
  saveOk : Bool
deriving DecidableEq, Repr

/-- The file-saving loop of upload_photos (upload.py lines 298 to 309):
paths accumulate until the first failing save raises. -/
def saveAll : List UploadFileIn → Option (List String)
  | [] => some []
  | f :: rest =>
    if f.saveOk then (saveAll rest).map (fun l => ("uploaded_images/" ++ f.filename) :: l)
    else none

/-- Response of a successful upload_photos call. -/
structure UploadResp where
  orderId : Nat
  package : String
  savedPaths : List String
deriving DecidableEq, Repr

/-- upload_photos (upload.py lines 270 to 323). The package and photo-count
validation on lines 277 to 286 is commented out in the source, so the
handler creates and commits the Order row unconditionally, then saves the
files and schedules the background task; a failing save raises after the
Order was already committed. -/
def upload_photos (package : String) (addOns : Option String)
    (files : List UploadFileIn) (db : DB) : DB × Api UploadResp :=
  let orow : OrderRow :=
    { id := db.nextOrderId, userId := none, package := package, addOns := addOns }
  let db := { db with orders := db.orders ++ [orow], nextOrderId := db.nextOrderId + 1 }
  match saveAll files with
  | none => (db, .httpError 500 "Failed to save a file")
  | some paths =>
    (db, .ok { orderId := orow.id, package := package, savedPaths := paths })

/-! ## Feedback endpoint (upload.py, submit_feedback) -/

/-- FeedbackPayload (upload.py lines 327 to 329). -/
structure FeedbackPayload where
  videoId : Nat
  feedbackText : String
deriving DecidableEq, Repr

/-- External world met by one submit_feedback call: the OpenAI response for
improve_prompt_with_feedback (none when that call raised), the RunwayML
SDK outcome in the live path, and the success of downloading the output. -/
structure FeedbackWorld where
  reviseApi : Option String
  runway : RunwaySdkOutcome
  downloadOk : Bool
deriving DecidableEq, Repr

/-- Response of a successful submit_feedback call (upload.py lines 413 to 419). -/
structure FeedbackResp where
  newVideoId : Nat
  status : VStatus
  videoUrl : Option String
  localPath : String
  newPrompt : String
deriving DecidableEq, Repr

/-- submit_feedback (upload.py lines 331 to 425). All exceptions, including
the HTTPExceptions raised inside the try block, are caught by the blanket
except on line 421 and rewrapped as a 500; db.rollback there cannot undo
the Feedback commit of line 351. Step 5 (lines 355 to 358) builds the
data-URL string from the stored image bytes and then passes that very
string to open as a filesystem path; step 6 (line 362) passes it to PIL
Image.open. Both are modelled as lookups of that path in the filesystem. -/
def submit_feedback (mock : Bool) (fs : FileSystem) (w : FeedbackWorld)
    (payload : FeedbackPayload) (db : DB) : DB × Api FeedbackResp :=
  match db.findVideo payload.videoId with
  | none => (db, .httpError 500 "Error generating video: Video not found")
  | some parent =>
    match db.findImage parent.imageId with
    | none => (db, .httpError 500 "Error generating video: Source image not found")
    | some image =>
      -- upload.py line 346: revised prompt from the parent prompt and feedback
      let newPrompt := improve_prompt_with_feedback true parent.prompt payload.feedbackText w.reviseApi
      -- upload.py lines 349 to 352: Feedback row committed here
      let fbRow : FeedbackRow :=
        { id := db.nextFeedbackId, videoId := parent.id,
          feedbackText := payload.feedbackText, newPrompt := newPrompt }
      let db := { db with feedbacks := db.feedbacks ++ [fbRow],
                          nextFeedbackId := db.nextFeedbackId + 1 }
      let optPath := "data:image/jpeg;base64," ++ base64Encode image.content
      match fsRead fs optPath with
      | none => (db, .httpError 500 "Error generating video: No such file or directory")
      | some entry =>
        match entry.dims with
        | none => (db, .httpError 500 "Error generating video: cannot identify image file")
        | some (wpx, hpx) =>
          let _aspect : String := if wpx ≥ hpx then "1280:720" else "720:1280"
          let genStep : Api (VStatus × Option String × String × Option String) :=
            if mock then
              -- upload.py lines 367 to 374
              .ok (VStatus.succeeded, none,
                   "videos/mock_" ++ toString image.id ++ "_" ++ toString db.clock ++ ".mp4",
                   some ("mock-job-" ++ toString db.clock))
            else
              match w.runway with
              | .exn => .httpError 500 "Error generating video: RunwayML call failed"
              | .task taskId output =>
                match output with
                | [] => .httpError 500 "Error generating video: RunwayML did not return a video"
                | url :: _ =>
                  if w.downloadOk then
                    .ok (VStatus.succeeded, some url,
                         "videos/video_" ++ toString image.id ++ "_" ++ toString db.clock ++ ".mp4",
                         some taskId)
                  else
                    .httpError 500 "Error generating video: download failed"
          match genStep with
          | .httpError c d => (db, .httpError c d)
          | .ok (st, videoUrl, videoPath, taskId) =>
            -- upload.py lines 399 to 411: child Video row
            let child : VideoRow :=
              { id := db.nextVideoId, userId := none, imageId := image.id,
                prompt := newPrompt, runwayJobId := taskId, status := st,
                videoUrl := videoUrl, videoPath := some videoPath,
                parentVideoId := some parent.id,
                iteration := (if parent.iteration = 0 then 1 else parent.iteration) + 1 }
            let db := { db with videos := db.videos ++ [child],
                                nextVideoId := db.nextVideoId + 1 }
            (db, .ok { newVideoId := child.id, status := st, videoUrl := videoUrl,
                       localPath := videoPath, newPrompt := newPrompt })

/-! ## Admin endpoints (admin.py) -/

/-- Latest-video key comparison used by order_by(iteration desc, id desc). -/
def vidKeyLt (a b : VideoRow) : Bool :=
  a.iteration < b.iteration || (a.iteration = b.iteration && a.id < b.id)

/-- Fold picking the maximal row under vidKeyLt, keeping the earlier row on
a full tie. -/
def pickLatest : VideoRow → List VideoRow → VideoRow
  | v, [] => v
  | v, x :: rest => pickLatest (if vidKeyLt v x then x else v) rest

/-- query(Video).filter(image_id).order_by(iteration desc, id desc).first()
as used in admin.py lines 168 to 173. -/
def latestVideoFor (db : DB) (imgId : Nat) : Option VideoRow :=
  match db.videos.filter (fun v => v.imageId = imgId) with
  | [] => none
  | v :: vs => some (pickLatest v vs)

/-- Parse of the internal status vocabulary. -/
def statusOfInternal : String → Option VStatus
  | "queued" => some .queued
  | "processing" => some .processing
  | "succeeded" => some .succeeded
  | "failed" => some .failed
  | _ => none

/-- Response of admin_update_order_status. -/
structure StatusResp where
  imageId : Nat
  videoId : Nat
  status : VStatus
deriving DecidableEq, Repr

/-- admin_update_order_status (admin.py lines 147 to 201). The path
parameter is named order_id but is compared against UploadedImage.id. The
admin vocabulary completed/pending is mapped to succeeded/queued before
validation; an invalid status is rejected before any query. When the image
has no video a fresh iteration-1 row is created with the mapped status,
otherwise the latest row's status is overwritten. -/
def admin_update_order_status (imageId : Nat) (payloadStatus : Option String)
    (db : DB) : DB × Api StatusResp :=
  let newStatus := pyLower (pyStrip (payloadStatus.getD ""))
  let internalStr :=
    if newStatus = "completed" then "succeeded"
    else if newStatus = "pending" then "queued"
    else newStatus
  match statusOfInternal internalStr with
  | none => (db, .httpError 400 "Invalid status")
  | some internal =>
    match db.findImage imageId with
    | none => (db, .httpError 404 "Image not found")
    | some image =>
      match latestVideoFor db image.id with
      | none =>
        let vrow : VideoRow :=
          { id := db.nextVideoId, userId := none, imageId := image.id,
            prompt := image.prompt.getD "", runwayJobId := none,
            status := internal, videoUrl := none, videoPath := none,
            parentVideoId := none, iteration := 1 }
        let db := { db with videos := db.videos ++ [vrow],
                            nextVideoId := db.nextVideoId + 1 }
        (db, .ok { imageId := image.id, videoId := vrow.id, status := internal })
      | some latest =>
        let db := db.updateVideo latest.id (fun v => { v with status := internal })
        (db, .ok { imageId := image.id, videoId := latest.id, status := internal })

/-- Dropbox upload world for admin_upload_final_video: whether files_upload
succeeds and the shared link it returns. -/
structure DropboxWorld where
  ok : Bool
  sharedLinkUrl : String
deriving DecidableEq, Repr

/-- Response of admin_upload_final_video. -/
structure FinalResp where
  userId : Nat
  videoIds : List Nat
  videoUrl : String
  dropboxPath : String
  imagesUpdated : List Nat
deriving DecidableEq, Repr

/-- Body of the per-image loop of admin_upload_final_video (admin.py lines
377 to 393): overwrite the mirror fields of the image and insert a fresh
iteration-1 succeeded Video row, whatever videos already exist. -/
def finalVideoStep (userId : Nat) (dropboxPath videoUrl : String)
    (acc : DB) (img : ImageRow) : DB :=
  let acc := acc.updateImage img.id (fun r =>
    { r with videoPath := some dropboxPath, videoUrl := some videoUrl,
             videoGeneratedAt := some acc.clock })
  let vrow : VideoRow :=
    { id := acc.nextVideoId, userId := some userId, imageId := img.id,
      prompt := img.prompt.getD "", runwayJobId := none,
      status := .succeeded, videoUrl := some videoUrl,
      videoPath := some dropboxPath, parentVideoId := none,
      iteration := 1 }
  { acc with videos := acc.videos ++ [vrow], nextVideoId := acc.nextVideoId + 1 }

/-- admin_upload_final_video (admin.py lines 344 to 424): collects every
image of every order of the user, uploads the file to Dropbox, then for
each image overwrites the mirror fields and unconditionally inserts a new
Video row at iteration 1 with status succeeded, finally recording a
FinalVideo row referencing the first image. A Dropbox failure raises
before any database write. -/
def admin_upload_final_video (userId : Nat) (w : DropboxWorld) (db : DB) :
    DB × Api FinalResp :=
  let images := db.images.filter (fun img =>
    match db.findOrder img.orderId with
    | some o => o.userId = some userId
    | none => false)
  match images with
  | [] => (db, .httpError 404 "No images found for this user")
  | i0 :: _ =>
    if w.ok = false then
      (db, .httpError 500 "Dropbox upload failed")
    else
      let dropboxPath := "/final_videos/final_user_" ++ toString userId ++ "_"
        ++ toString db.clock ++ ".mp4"
      let videoUrl := w.sharedLinkUrl.replace "?dl=0" "?raw=1"
      let firstNewId := db.nextVideoId
      let db := images.foldl (finalVideoStep userId dropboxPath videoUrl) db
      let db := { db with finalVideos := db.finalVideos ++
        [{ userId := userId, imageId := i0.id, dropboxPath := dropboxPath,
           videoUrl := videoUrl }] }
      (db, .ok { userId := userId,
                 videoIds := (List.range images.length).map (fun k => firstNewId + k),
                 videoUrl := videoUrl, dropboxPath := dropboxPath,
                 imagesUpdated := images.map (·.id) })

/-- admin_regenerate_video (admin.py lines 549 to 614). The blank-prompt
check and the two not-found checks run first with no side effect. The
Video constructor on line 575 passes iteration=next_iteration where
next_iteration is an undefined name, so constructing the row raises
NameError before db.add ever runs: the handler always fails with an
unhandled internal error at that point and no row is inserted, the
generation client is never invoked. -/
def admin_regenerate_video (imageId : Nat) (payloadPrompt : Option String)
    (fs : FileSystem) (db : DB) : DB × Api Unit :=
  let newPrompt := pyStrip (payloadPrompt.getD "")
  if newPrompt = "" then
    (db, .httpError 422 "Prompt is required")
  else
    match db.findImage imageId with
    | none => (db, .httpError 404 "Image not found")
    | some image =>
      match fsRead fs ("uploads/" ++ image.filename) with
      | none => (db, .httpError 404 "Source image file not found on server")
      | some _ =>
        (db, .httpError 500 "NameError: name next_iteration is not defined")

/-! ## Generation client (src/app/services/runway_service.py, generate_video)

The live client submits a job, polls up to 60 attempts, downloads the
asset and mirrors the outcome onto the tracked Video row. Alongside the
final state the model records, in order, every status value the function
writes to the tracked row, so that the order of the writes is observable.
-/

/-- Outcome of the job-creation POST (runway_service.py lines 59 to 79). -/
inductive SubmitOut where
  | transportErr
  | noId
  | jobId (s : String)
deriving DecidableEq, Repr

/-- Outcome of one polling GET, indexed by attempt (lines 97 to 165). -/
inductive PollStep where
  | transportErr
  | running
  | succeededNoUrl
  | succeededUrl (url : String) (downloadOk : Bool)
  | failedStatus
deriving Repr

/-- External world of one generate_video call. -/
structure GenWorld where
  submit : SubmitOut
  poll : Nat → PollStep

/-- Return value of a successful generate_video call (line 148). -/
structure GenResult where
  videoUrl : String
  filePath : String
  runwayJobId : String
deriving DecidableEq, Repr

/-- Final state, ordered status writes to the tracked row, and result of a
generate_video call. -/
structure GenOut where
  db : DB
  statusWrites : List VStatus
  result : Except String GenResult

/-- The pattern repeated through runway_service.py (lines 35 to 44, 64 to
73, ...): when video_id is truthy in Python and the row exists, write the
given status. Returns the write performed, if any. -/
def markStatus (db : DB) (videoId : Option Nat) (st : VStatus) : DB × List VStatus :=
  match videoId with
  | none => (db, [])
  | some i =>
    if i = 0 then (db, [])
    else
      match db.findVideo i with
      | none => (db, [])
      | some _ => (db.updateVideo i (fun v => { v with status := st }), [st])

/-- Success bookkeeping (lines 135 to 146): status succeeded plus the output
path and url mirrored onto the tracked row. -/
def markSucceeded (db : DB) (videoId : Option Nat) (url outputPath : String) :
    DB × List VStatus :=
  match videoId with
  | none => (db, [])
  | some i =>
    if i = 0 then (db, [])
    else
      match db.findVideo i with
      | none => (db, [])
      | some _ =>
        (db.updateVideo i (fun v =>
          { v with status := .succeeded, videoPath := some outputPath,
                   videoUrl := some url }), [.succeeded])

/-- The polling loop (lines 95 to 179), fuel counting the remaining
attempts out of max_attempts = 60. Note that a success report with no url
(line 122) and a failing download (line 128) raise without writing a
status, leaving the tracked row as previously written. -/
def pollLoop (w : GenWorld) (videoId : Option Nat) (jobId outputPath : String) :
    Nat → Nat → DB → List VStatus → GenOut
  | 0, _, db, writes =>
    let (db, ws) := markStatus db videoId .failed
    { db := db, statusWrites := writes ++ ws,
      result := .error "Video generation timed out after 300 seconds" }
  | fuel + 1, attempt, db, writes =>
    match w.poll attempt with
    | .transportErr =>
      let (db, ws) := markStatus db videoId .failed
      { db := db, statusWrites := writes ++ ws,
        result := .error "Failed to check task status" }
    | .failedStatus =>
      let (db, ws) := markStatus db videoId .failed
      { db := db, statusWrites := writes ++ ws,
        result := .error "RunwayML video generation failed" }
    | .succeededNoUrl =>
      { db := db, statusWrites := writes,
        result := .error "Task completed but no video URL" }
    | .succeededUrl url downloadOk =>
      if downloadOk then
        let (db, ws) := markSucceeded db videoId url outputPath
        { db := db, statusWrites := writes ++ ws,
          result := .ok { videoUrl := url, filePath := outputPath, runwayJobId := jobId } }
      else
        { db := db, statusWrites := writes,
          result := .error "Failed to download video" }
    | .running => pollLoop w videoId jobId outputPath fuel (attempt + 1) db writes

/-- generate_video (runway_service.py lines 21 to 179). The tracked row is
set to processing at the start of the call (lines 34 to 44), before the
job is even submitted; the remote job id is stored only later (lines 82 to
91) and only a terminal poll outcome moves the row to succeeded or
failed. -/
def generate_video (w : GenWorld) (fs : FileSystem) (prompt imagePath outputPath : String)
    (videoId : Option Nat) (db : DB) : GenOut :=
  match fsRead fs imagePath with
  | none =>
    { db := db, statusWrites := [], result := .error "Image file not found" }
  | some _ =>
    if pyStrip prompt = "" then
      { db := db, statusWrites := [], result := .error "Prompt cannot be empty" }
    else
      let (db, ws1) := markStatus db videoId .processing
      match w.submit with
      | .transportErr =>
        let (db, ws2) := markStatus db videoId .failed
        { db := db, statusWrites := ws1 ++ ws2,
          result := .error "RunwayML job creation failed" }
      | .noId =>
        { db := db, statusWrites := ws1,
          result := .error "Unexpected RunwayML response structure" }
      | .jobId jid =>
        let db :=
          match videoId with
          | none => db
          | some i =>
            if i = 0 then db
            else db.updateVideo i (fun v => { v with runwayJobId := some jid })
        pollLoop w videoId jid outputPath 60 0 db ws1

/-! ## Helper lemmas -/

/-- The prompt actually produced for a readable image in a live process. -/
def promptOfApi (api : Option String) : String :=
  match api with
  | some c => pyStrip c
  | none => fallbackCinematicPrompt

/-- With credentials set and the file readable, describe always returns. -/
theorem describe_ok (api : Option String) :
    generate_cinematic_prompt_from_image true true api = .ok (promptOfApi api) := by
  cases api <;> rfl

/-- Number of batch entries the pipeline can actually open. -/
def readableCount (files : List ImgFile) : Nat :=
  (files.filter (fun f => f.readable)).length

/-- The status computed for an inserted batch Video row is terminal, and in
mock mode always succeeded. -/
theorem batchGenerationResult_status (mock : Bool) (imgId c : Nat) (f : ImgFile) :
    ((batchGenerationResult mock imgId c f).1 = .succeeded ∨
      (batchGenerationResult mock imgId c f).1 = .failed) ∧
    (mock = true → (batchGenerationResult mock imgId c f).1 = .succeeded) := by
  unfold batchGenerationResult
  cases mock with
  | true => simp
  | false =>
    simp only [Bool.false_eq_true, if_false]
    cases f.runway with
    | exn => simp
    | task taskId output =>
      cases output with
      | nil => simp
      | cons u rest =>
        by_cases hd : f.dropboxOk = true <;> simp [hd]

/-- Effect of one readable image on the store, abstracted to the facts the
claims need: exactly one Video row is appended, carrying the computed
status, iteration 1 and the fresh id; images only have fields rewritten. -/
theorem processOneReadable_spec (mock : Bool) (o : OrderRow) (f : ImgFile)
    (imgId : Nat) (p : String) (db : DB) :
    ∃ vrow : VideoRow,
      (processOneReadable mock o f imgId p db).videos = db.videos ++ [vrow] ∧
      vrow.status = (batchGenerationResult mock imgId db.clock f).1 ∧
      vrow.iteration = 1 ∧ vrow.id = db.nextVideoId ∧ vrow.imageId = imgId ∧
      (processOneReadable mock o f imgId p db).images.length = db.images.length ∧
      (processOneReadable mock o f imgId p db).feedbacks = db.feedbacks ∧
      (processOneReadable mock o f imgId p db).clock = db.clock := by
  unfold processOneReadable
  rcases hg : batchGenerationResult mock imgId db.clock f with ⟨st, vu, tid⟩
  refine ⟨{ id := db.nextVideoId, userId := o.userId, imageId := imgId,
            prompt := p, runwayJobId := tid, status := st, videoUrl := vu,
            videoPath := none, parentVideoId := none, iteration := 1 }, ?_⟩
  by_cases hst : st = VStatus.succeeded <;>
    simp [hg, hst, create_notification, DB.updateImage]

theorem insertImageRow_videos (o : OrderRow) (f : ImgFile) (db : DB) :
    (insertImageRow o f db).videos = db.videos := rfl

theorem insertImageRow_feedbacks (o : OrderRow) (f : ImgFile) (db : DB) :
    (insertImageRow o f db).feedbacks = db.feedbacks := rfl

theorem insertImageRow_clock (o : OrderRow) (f : ImgFile) (db : DB) :
    (insertImageRow o f db).clock = db.clock := rfl

theorem insertImageRow_images_length (o : OrderRow) (f : ImgFile) (db : DB) :
    (insertImageRow o f db).images.length = db.images.length + 1 := by
  simp [insertImageRow]

theorem setImagePrompt_videos (db : DB) (imgId : Nat) (p : String) :
    (setImagePrompt db imgId p).videos = db.videos := rfl

theorem setImagePrompt_feedbacks (db : DB) (imgId : Nat) (p : String) :
    (setImagePrompt db imgId p).feedbacks = db.feedbacks := rfl

theorem setImagePrompt_clock (db : DB) (imgId : Nat) (p : String) :
    (setImagePrompt db imgId p).clock = db.clock := rfl

theorem setImagePrompt_images_length (db : DB) (imgId : Nat) (p : String) :
    (setImagePrompt db imgId p).images.length = db.images.length := by
  simp [setImagePrompt, DB.updateImage]

/-- Aggregate effect of the batch loop: one image row and one Video row per
readable file, all Video rows fresh at iteration 1 with terminal status,
feedback table and clock untouched. -/
theorem processImages_spec (mock : Bool) (o : OrderRow) :
    ∀ (files : List ImgFile) (db : DB),
      ∃ tail : List VideoRow,
        (processImages mock o files db).videos = db.videos ++ tail ∧
        tail.length = readableCount files ∧
        (∀ v ∈ tail, v.iteration = 1 ∧
          (v.status = .succeeded ∨ v.status = .failed) ∧
          (mock = true → v.status = .succeeded)) ∧
        (processImages mock o files db).images.length
          = db.images.length + readableCount files ∧
        (processImages mock o files db).feedbacks = db.feedbacks
  | [], db => by
    exact ⟨[], by simp [processImages, readableCount]⟩
  | f :: rest, db => by
    by_cases hr : f.readable = true
    · have hstep : processImages mock o (f :: rest) db
        = processImages mock o rest
            (processOneReadable mock o f db.nextImageId (promptOfApi f.descApi)
              (setImagePrompt (insertImageRow o f db) db.nextImageId
                (promptOfApi f.descApi))) := by
        rw [processImages, describe_ok, if_neg (by simp [hr])]
      set db1 := setImagePrompt (insertImageRow o f db) db.nextImageId
        (promptOfApi f.descApi) with hdb1
      obtain ⟨vrow, hv, hstat, hiter, _, _, himg, hfb, hclock⟩ :=
        processOneReadable_spec mock o f db.nextImageId (promptOfApi f.descApi) db1
      obtain ⟨tail, htl, hlen, hmem, himg2, hfb2⟩ :=
        processImages_spec mock o rest (processOneReadable mock o f db.nextImageId
          (promptOfApi f.descApi) db1)
      rw [hstep]
      refine ⟨vrow :: tail, ?_, ?_, ?_, ?_, ?_⟩
      · rw [htl, hv, hdb1, setImagePrompt_videos, insertImageRow_videos]; simp
      · simp [hlen, readableCount, hr]
      · intro v hvmem
        rcases List.mem_cons.mp hvmem with hvm | hvm
        · subst hvm
          have := batchGenerationResult_status mock db.nextImageId db1.clock f
          exact ⟨hiter, by rw [hstat]; exact this.1, by rw [hstat]; exact this.2⟩
        · exact hmem v hvm
      · rw [himg2, himg, hdb1, setImagePrompt_images_length,
            insertImageRow_images_length]
        simp [readableCount, hr]
        omega
      · rw [hfb2, hfb, hdb1, setImagePrompt_feedbacks, insertImageRow_feedbacks]
    · have hr0 : f.readable = false := by
        cases hfr : f.readable
        · rfl
        · exact absurd hfr hr
      have hstep : processImages mock o (f :: rest) db = processImages mock o rest db := by
        rw [processImages, if_pos (by simp [hr0])]
      rw [hstep]
      obtain ⟨tail, h1, h2, h3, h4, h5⟩ := processImages_spec mock o rest db
      exact ⟨tail, h1, by simp [readableCount, hr0, h2], h3,
             by simpa [readableCount, hr0] using h4, h5⟩

/-- A request referencing no video leaves the store untouched. -/
theorem submit_feedback_nf_video (mock : Bool) (fs : FileSystem) (w : FeedbackWorld)
    (payload : FeedbackPayload) (db : DB)
    (h1 : db.findVideo payload.videoId = none) :
    (submit_feedback mock fs w payload db).1 = db := by
  simp only [submit_feedback, h1]

/-- A request whose parent video has no stored image leaves the store
untouched. -/
theorem submit_feedback_nf_image (mock : Bool) (fs : FileSystem) (w : FeedbackWorld)
    (payload : FeedbackPayload) (db : DB) (parent : VideoRow)
    (h1 : db.findVideo payload.videoId = some parent)
    (h2 : db.findImage parent.imageId = none) :
    (submit_feedback mock fs w payload db).1 = db := by
  simp only [submit_feedback, h1, h2]

/-- Videos after a feedback call: either unchanged, or exactly one appended
child row, born succeeded at the parent iteration plus one. -/
theorem submit_feedback_videos_shape (mock : Bool) (fs : FileSystem) (w : FeedbackWorld)
    (payload : FeedbackPayload) (db : DB) (parent : VideoRow) (image : ImageRow)
    (h1 : db.findVideo payload.videoId = some parent)
    (h2 : db.findImage parent.imageId = some image) :
    (submit_feedback mock fs w payload db).1.videos = db.videos ∨
    ∃ child : VideoRow,
      (submit_feedback mock fs w payload db).1.videos = db.videos ++ [child] ∧
      child.status = .succeeded ∧
      child.iteration = (if parent.iteration = 0 then 1 else parent.iteration) + 1 ∧
      child.parentVideoId = some parent.id := by
  simp only [submit_feedback, h1, h2]
  split
  · exact Or.inl rfl
  · split
    · exact Or.inl rfl
    · split
      · exact Or.inl rfl
      · rename_i st vu vp tid heq
        right
        refine ⟨_, rfl, ?_, rfl, rfl⟩
        iterate 5 (try (split at heq <;> try simp_all))

/-! ## Latest-video selection -/

theorem vidKeyLt_eq_false_iff (a b : VideoRow) :
    vidKeyLt a b = false ↔
      (b.iteration < a.iteration ∨ (b.iteration = a.iteration ∧ b.id ≤ a.id)) := by
  simp [vidKeyLt]
  omega

theorem vidKeyLt_irrefl (a : VideoRow) : vidKeyLt a a = false := by
  simp [vidKeyLt]

theorem vidKeyLt_asymm (a b : VideoRow) (h : vidKeyLt a b = true) :
    vidKeyLt b a = false := by
  simp [vidKeyLt] at h ⊢
  omega

theorem vidKeyLt_false_trans (a b c : VideoRow) (hab : vidKeyLt a b = false)
    (hbc : vidKeyLt b c = false) : vidKeyLt a c = false := by
  simp [vidKeyLt] at hab hbc ⊢
  omega

/-- The fold keeps either the seed or a member of the list. -/
theorem pickLatest_mem : ∀ (l : List VideoRow) (v : VideoRow),
    pickLatest v l = v ∨ pickLatest v l ∈ l
  | [], v => Or.inl rfl
  | x :: rest, v => by
    rw [pickLatest]
    rcases pickLatest_mem rest (if vidKeyLt v x then x else v) with h | h
    · rw [h]
      by_cases hvx : vidKeyLt v x = true
      · rw [if_pos hvx]; exact Or.inr (List.mem_cons_self x rest)
      · rw [if_neg hvx]; exact Or.inl rfl
    · exact Or.inr (List.mem_cons_of_mem x h)

/-- The fold result is maximal for the seed and every member. -/
theorem pickLatest_ge : ∀ (l : List VideoRow) (v : VideoRow),
    vidKeyLt (pickLatest v l) v = false ∧
    ∀ w ∈ l, vidKeyLt (pickLatest v l) w = false
  | [], v => ⟨vidKeyLt_irrefl v, by intro w hw; cases hw⟩
  | x :: rest, v => by
    rw [pickLatest]
    obtain ⟨hacc, hrest⟩ := pickLatest_ge rest (if vidKeyLt v x then x else v)
    by_cases hvx : vidKeyLt v x = true
    · rw [if_pos hvx] at hacc hrest ⊢
      have hx : vidKeyLt (pickLatest x rest) x = false := hacc
      have hv : vidKeyLt (pickLatest x rest) v = false :=
        vidKeyLt_false_trans _ _ _ hx (vidKeyLt_asymm v x hvx)
      refine ⟨hv, ?_⟩
      intro w hw
      rcases List.mem_cons.mp hw with hwx | hwr
      · subst hwx; exact hx
      · exact hrest w hwr
    · have hvx' : vidKeyLt v x = false := by
        cases hb : vidKeyLt v x
        · rfl
        · exact absurd hb hvx
      rw [if_neg hvx] at hacc hrest ⊢
      refine ⟨hacc, ?_⟩
      intro w hw
      rcases List.mem_cons.mp hw with hwx | hwr
      · subst hwx
        exact vidKeyLt_false_trans _ _ _ hacc hvx'
      · exact hrest w hwr

/-- The selected latest video belongs to the image and dominates every video
of that image by iteration, ties broken by id. -/
theorem latestVideoFor_spec (db : DB) (imgId : Nat) (v : VideoRow)
    (h : latestVideoFor db imgId = some v) :
    v ∈ db.videos ∧ v.imageId = imgId ∧
    ∀ w ∈ db.videos, w.imageId = imgId →
      (w.iteration < v.iteration ∨ (w.iteration = v.iteration ∧ w.id ≤ v.id)) := by
  unfold latestVideoFor at h
  rcases hf : db.videos.filter (fun x => x.imageId = imgId) with _ | ⟨v0, vs⟩
  · rw [hf] at h; cases h
  · rw [hf] at h
    have hv : v = pickLatest v0 vs := by
      cases h; rfl
    have hmemf : v ∈ db.videos.filter (fun x => x.imageId = imgId) := by
      rw [hf]
      rcases pickLatest_mem vs v0 with h0 | h0
      · rw [hv, h0]; exact List.mem_cons_self v0 vs
      · rw [hv]; exact List.mem_cons_of_mem v0 h0
    have hmem := List.mem_filter.mp hmemf
    refine ⟨hmem.1, by simpa using hmem.2, ?_⟩
    intro w hw hwi
    have hwf : w ∈ db.videos.filter (fun x => x.imageId = imgId) :=
      List.mem_filter.mpr ⟨hw, by simpa using hwi⟩
    rw [hf] at hwf
    obtain ⟨hge0, hgeRest⟩ := pickLatest_ge vs v0
    have : vidKeyLt v w = false := by
      rcases List.mem_cons.mp hwf with hw0 | hwr
      · subst hw0; rw [hv]; exact hge0
      · rw [hv]; exact hgeRest w hwr
    exact (vidKeyLt_eq_false_iff v w).mp this

/-! ## Iteration positivity -/

/-- Every stored video sits at iteration one or higher. -/
def itersPos (db : DB) : Prop := ∀ v ∈ db.videos, 1 ≤ v.iteration

/-- The batch pipeline preserves iteration positivity. -/
theorem itersPos_process_videos (mock : Bool) (orderId : Nat) (files : List ImgFile)
    (db : DB) (h : itersPos db) :
    itersPos (process_videos_for_order mock orderId files db) := by
  unfold process_videos_for_order
  cases ho : db.findOrder orderId with
  | none => exact h
  | some o =>
    obtain ⟨tail, hv, _, hmem, _, _⟩ := processImages_spec mock o files db
    intro v hvm
    rw [hv] at hvm
    rcases List.mem_append.mp hvm with hm | hm
    · exact h v hm
    · rw [(hmem v hm).1]

/-- The feedback endpoint preserves iteration positivity. -/
theorem itersPos_submit_feedback (mock : Bool) (fs : FileSystem) (w : FeedbackWorld)
    (payload : FeedbackPayload) (db : DB) (h : itersPos db) :
    itersPos (submit_feedback mock fs w payload db).1 := by
  cases h1 : db.findVideo payload.videoId with
  | none => rw [submit_feedback_nf_video mock fs w payload db h1]; exact h
  | some parent =>
    cases h2 : db.findImage parent.imageId with
    | none => rw [submit_feedback_nf_image mock fs w payload db parent h1 h2]; exact h
    | some image =>
      rcases submit_feedback_videos_shape mock fs w payload db parent image h1 h2
        with hs | ⟨child, hs, _, hiter, _⟩
      · intro v hv; rw [hs] at hv; exact h v hv
      · intro v hv
        rw [hs] at hv
        rcases List.mem_append.mp hv with hm | hm
        · exact h v hm
        · rw [List.mem_singleton.mp hm, hiter]
          omega

/-- The admin status override preserves iteration positivity. -/
theorem itersPos_admin_update (imageId : Nat) (ps : Option String) (db : DB)
    (h : itersPos db) : itersPos (admin_update_order_status imageId ps db).1 := by
  unfold admin_update_order_status
  dsimp only
  repeat' split
  all_goals first
    | exact h
    | (intro v hv
       rcases List.mem_append.mp hv with hm | hm
       · exact h v hm
       · rw [List.mem_singleton.mp hm])
    | (intro v hv
       simp only [DB.updateVideo] at hv
       obtain ⟨u, hu, hv2⟩ := List.mem_map.mp hv
       have hit : v.iteration = u.iteration := by
         subst hv2
         split <;> rfl
       rw [hit]
       exact h u hu)

/-- One step of the admin final-video loop preserves iteration positivity. -/
theorem itersPos_finalVideoStep (userId : Nat) (dp vu : String) (acc : DB)
    (img : ImageRow) (h : itersPos acc) :
    itersPos (finalVideoStep userId dp vu acc img) := by
  intro v hv
  simp only [finalVideoStep, DB.updateImage] at hv
  rcases List.mem_append.mp hv with hm | hm
  · exact h v hm
  · rw [List.mem_singleton.mp hm]

/-- The admin final-video loop preserves iteration positivity. -/
theorem itersPos_finalVideoFold (userId : Nat) (dp vu : String) :
    ∀ (imgs : List ImageRow) (acc : DB), itersPos acc →
      itersPos (imgs.foldl (finalVideoStep userId dp vu) acc)
  | [], _acc, h => h
  | img :: rest, acc, h =>
    itersPos_finalVideoFold userId dp vu rest (finalVideoStep userId dp vu acc img)
      (itersPos_finalVideoStep userId dp vu acc img h)

/-- The admin final-video endpoint preserves iteration positivity. -/
theorem itersPos_admin_final (userId : Nat) (w : DropboxWorld) (db : DB)
    (h : itersPos db) : itersPos (admin_upload_final_video userId w db).1 := by
  unfold admin_upload_final_video
  dsimp only
  repeat' split
  all_goals first
    | exact h
    | (intro v hv
       dsimp only at hv
       exact itersPos_finalVideoFold _ _ _ _ db h v hv)

/-- When every form file saves, the saving loop returns all paths. -/
theorem saveAll_ok : ∀ (files : List UploadFileIn),
    (∀ f ∈ files, f.saveOk = true) → ∃ l, saveAll files = some l
  | [], _ => ⟨[], rfl⟩
  | f :: rest, h => by
    obtain ⟨l, hl⟩ := saveAll_ok rest (fun g hg => h g (List.mem_cons_of_mem f hg))
    refine ⟨("uploaded_images/" ++ f.filename) :: l, ?_⟩
    simp [saveAll, h f (List.mem_cons_self f rest), hl]

/-- find? by id commutes with an id-preserving in-place update. -/
theorem find?_map_update (i : Nat) (g : VideoRow → VideoRow)
    (hg : ∀ x, (g x).id = x.id) :
    ∀ (l : List VideoRow) (v : VideoRow),
      l.find? (fun x => x.id = i) = some v →
      (l.map (fun x => if x.id = i then g x else x)).find? (fun x => x.id = i)
        = some (g v)
  | [], v => by intro h; cases h
  | x :: rest, v => by
    intro h
    by_cases hx : x.id = i
    · rw [List.find?_cons_of_pos _ (by simpa using hx)] at h
      have hxv : x = v := by cases h; rfl
      subst hxv
      rw [List.map_cons, if_pos hx,
          List.find?_cons_of_pos _ (by simp [hg x, hx])]
    · rw [List.find?_cons_of_neg _ (by simpa using hx)] at h
      rw [List.map_cons, if_neg hx,
          List.find?_cons_of_neg _ (by simpa using hx)]
      exact find?_map_update i g hg rest v h

/-- DB version of the commuting lemma. -/
theorem findVideo_updateVideo (db : DB) (i : Nat) (g : VideoRow → VideoRow)
    (hg : ∀ x, (g x).id = x.id) (v : VideoRow) (h : db.findVideo i = some v) :
    (db.updateVideo i g).findVideo i = some (g v) := by
  unfold DB.findVideo DB.updateVideo
  exact find?_map_update i g hg db.videos v h

/-- markStatus on a truthy id with an existing row performs the write. -/
theorem markStatus_some (db : DB) (i : Nat) (st : VStatus) (v : VideoRow)
    (hi : i ≠ 0) (hv : db.findVideo i = some v) :
    markStatus db (some i) st
      = (db.updateVideo i (fun x => { x with status := st }), [st]) := by
  unfold markStatus
  dsimp only
  rw [if_neg hi, hv]

/-- With the image readable, the prompt nonblank and a tracked existing row,
a transport failure at submit time yields exactly the write sequence
processing then failed: the row is in processing before any job id can
exist, and the call reports the error. -/
theorem generate_video_submit_failure (w : GenWorld) (fs : FileSystem)
    (prompt ip op : String) (i : Nat) (db : DB) (e : FsEntry) (v : VideoRow)
    (hfs : fsRead fs ip = some e) (hp : pyStrip prompt ≠ "") (hi : i ≠ 0)
    (hv : db.findVideo i = some v) (hsub : w.submit = .transportErr) :
    (generate_video w fs prompt ip op (some i) db).statusWrites
      = [.processing, .failed] ∧
    (generate_video w fs prompt ip op (some i) db).result
      = .error "RunwayML job creation failed" := by
  have hfind : (db.updateVideo i
        (fun x => { x with status := VStatus.processing })).findVideo i
      = some { v with status := VStatus.processing } :=
    findVideo_updateVideo db i
      (fun x => { x with status := VStatus.processing }) (fun _ => rfl) v hv
  unfold generate_video
  rw [hfs]
  dsimp only
  rw [if_neg hp, markStatus_some db i .processing v hi hv]
  dsimp only
  rw [hsub]
  dsimp only
  rw [markStatus_some _ i .failed _ hi hfind]
  exact ⟨rfl, rfl⟩

/-! ## Concrete fixtures

A store holding one order of user 7 with one uploaded image and one
succeeded iteration-1 video, as left behind by a completed mock upload. -/

/-- Order 1 of user 7, package Starter. -/
def sampleOrder : OrderRow :=
  { id := 1, userId := some 7, package := "Starter", addOns := none }

/-- Image 1 of order 1 with a generated prompt. -/
def sampleImage : ImageRow :=
  { id := 1, orderId := 1, filename := "house.jpg", content := [],
    prompt := some "warm dusk exterior", videoPath := none, videoUrl := none,
    videoGeneratedAt := none }

/-- Succeeded iteration-1 video of image 1. -/
def sampleVideo : VideoRow :=
  { id := 1, userId := some 7, imageId := 1, prompt := "warm dusk exterior",
    runwayJobId := some "job-1", status := .succeeded, videoUrl := some "u",
    videoPath := none, parentVideoId := none, iteration := 1 }

/-- The populated store. -/
def sampleDB : DB :=
  { DB.empty with orders := [sampleOrder], images := [sampleImage],
                  videos := [sampleVideo],
                  nextOrderId := 2, nextImageId := 2, nextVideoId := 2 }

/-- A form file whose copy to IMAGES_DIR succeeds. -/
def okUpload : UploadFileIn := { filename := "a.jpg", saveOk := true }

/-- A batch file whose PIL open fails. -/
def unreadableImg : ImgFile :=
  { filename := "b.jpg", readable := false, width := 10, height := 5,
    content := [], descApi := none, runway := .exn, dropboxOk := true }

/-- A readable batch file whose live RunwayML call raises. -/
def failingImg : ImgFile :=
  { filename := "c.jpg", readable := true, width := 10, height := 5,
    content := [1, 2, 3], descApi := some "drone orbit at dusk",
    runway := .exn, dropboxOk := true }

/-- A readable batch file whose live generation succeeds end to end. -/
def succeedingImg : ImgFile :=
  { filename := "d.jpg", readable := true, width := 4, height := 9,
    content := [7], descApi := none, runway := .task "t9" ["https://out"],
    dropboxOk := true }

/-- Feedback world: revise falls back, live SDK raises, download ok. -/
def sampleFeedbackWorld : FeedbackWorld :=
  { reviseApi := none, runway := .exn, downloadOk := true }

/-- Filesystem holding the source image admin_regenerate_video checks for. -/
def regenFs : FileSystem :=
  [{ path := "uploads/house.jpg", content := [1], dims := some (4, 3) }]

/-- Generation world whose job-creation POST fails at transport level. -/
def genWorldSubmitFail : GenWorld :=
  { submit := .transportErr, poll := fun _ => .running }

/-! ## Claims -/

/-- C1 counterexample: uploading 3 images under package Starter (allowed
range 5 to 10) is not rejected: the handler returns success and one new
Order row is persisted, because the validation block of upload_photos is
commented out. -/
theorem c1_upload_three_under_starter_creates_order :
    (upload_photos "Starter" none [okUpload, okUpload, okUpload] DB.empty).2.isOk = true ∧
    (upload_photos "Starter" none [okUpload, okUpload, okUpload] DB.empty).1.orders.length = 1 :=
  ⟨rfl, rfl⟩

/-- C1 amended: upload_photos performs no package or photo-count validation:
every request, whatever the package name and file count, persists exactly
one new Order row, and the request succeeds whenever all file saves
succeed. -/
theorem c1_upload_never_validates (package : String) (addOns : Option String)
    (files : List UploadFileIn) (db : DB) :
    (upload_photos package addOns files db).1.orders
      = db.orders ++
        [{ id := db.nextOrderId, userId := none, package := package, addOns := addOns }] ∧
    ((∀ f ∈ files, f.saveOk = true) →
      (upload_photos package addOns files db).2.isOk = true) := by
  constructor
  · unfold upload_photos
    cases h : saveAll files <;> simp [h]
  · intro hall
    obtain ⟨l, hl⟩ := saveAll_ok files hall
    unfold upload_photos
    rw [hl]
    rfl

/-- C1 witness: the amended statement evaluated on one saved file. -/
theorem c1_upload_never_validates_witness :
    (upload_photos "Starter" none [okUpload] DB.empty).1.orders
      = DB.empty.orders ++
        [{ id := DB.empty.nextOrderId, userId := none, package := "Starter", addOns := none }] ∧
    (upload_photos "Starter" none [okUpload] DB.empty).2.isOk = true :=
  ⟨(c1_upload_never_validates "Starter" none [okUpload] DB.empty).1,
   (c1_upload_never_validates "Starter" none [okUpload] DB.empty).2
     (by intro f hf; rw [List.mem_singleton.mp hf]; rfl)⟩

/-- C2: the claim says a feedback submission against an existing video with
an existing source image creates one Feedback row and one child Video row
at the parent iteration plus one. On the code, step 5 of submit_feedback
builds the base64 data-URL string from the stored image bytes and then
opens that string as a filesystem path, which fails for every store, so
after the Feedback row is committed the handler always aborts with a 500:
the Feedback row is created but the child Video row never is. Evaluated at
the failing input: feedback "make it brighter" against video 1 of
sampleDB. -/
theorem c2_feedback_crashes_before_child_video :
    sampleDB.findVideo 1 = some sampleVideo ∧
    sampleDB.findImage 1 = some sampleImage ∧
    (submit_feedback true [] sampleFeedbackWorld
      { videoId := 1, feedbackText := "make it brighter" } sampleDB).2.isOk = false ∧
    (submit_feedback true [] sampleFeedbackWorld
      { videoId := 1, feedbackText := "make it brighter" } sampleDB).1.videos
      = sampleDB.videos ∧
    (submit_feedback true [] sampleFeedbackWorld
      { videoId := 1, feedbackText := "make it brighter" } sampleDB).1.feedbacks.length = 1 :=
  ⟨rfl, rfl, rfl, rfl, rfl⟩

/-- C3: the claim says an admin regeneration with an existing image, a
nonblank prompt and a readable source file updates the latest Video row
and invokes generation. On the code, the Video constructor on admin.py
line 575 references the undefined name next_iteration, so the handler
raises NameError before inserting any row or calling the client: at a
fully valid input it returns an internal error and the store is
untouched. -/
theorem c3_admin_regenerate_always_name_errors :
    pyStrip "cinematic sunset" ≠ "" ∧
    sampleDB.findImage 1 = some sampleImage ∧
    (fsRead regenFs "uploads/house.jpg").isSome = true ∧
    admin_regenerate_video 1 (some "cinematic sunset") regenFs sampleDB
      = (sampleDB, .httpError 500 "NameError: name next_iteration is not defined") :=
  ⟨by decide, rfl, rfl, rfl⟩

/-- C5 counterexample: a batch of one unreadable image creates zero
UploadedImage rows and zero Video rows, not the one UploadedImage row the
claim requires for every image of the batch. -/
theorem c5_unreadable_image_no_rows :
    (process_videos_for_order true 1 [unreadableImg] sampleDB).images.length
      = sampleDB.images.length ∧
    (process_videos_for_order true 1 [unreadableImg] sampleDB).videos.length
      = sampleDB.videos.length :=
  ⟨rfl, rfl⟩

/-- C5 amended: a zero-image batch is a no-op; for a batch under an existing
order, exactly one UploadedImage row and one iteration-1 Video row are
created per readable image (unreadable images are skipped with no rows, so
at most N of each for N images), and a generation failure for one image
does not prevent later images from being processed: the counts depend only
on how many files are readable, never on any generation outcome. -/
theorem c5_rows_follow_readable_images :
    (∀ mock orderId db, process_videos_for_order mock orderId [] db = db) ∧
    ∀ mock orderId files (db : DB) o, db.findOrder orderId = some o →
      (process_videos_for_order mock orderId files db).images.length
        = db.images.length + readableCount files ∧
      (process_videos_for_order mock orderId files db).videos.length
        = db.videos.length + readableCount files ∧
      readableCount files ≤ files.length ∧
      ∀ v ∈ (process_videos_for_order mock orderId files db).videos,
        v ∈ db.videos ∨ v.iteration = 1 := by
  constructor
  · intro mock orderId db
    unfold process_videos_for_order
    cases h : db.findOrder orderId <;> rfl
  · intro mock orderId files db o ho
    unfold process_videos_for_order
    rw [ho]
    obtain ⟨tail, hv, hlen, hmem, himg, _⟩ := processImages_spec mock o files db
    refine ⟨himg, ?_, ?_, ?_⟩
    · rw [hv]
      simp [hlen]
    · simpa [readableCount] using List.length_filter_le (fun f => f.readable) files
    · intro v hvm
      rw [hv] at hvm
      rcases List.mem_append.mp hvm with hm | hm
      · exact Or.inl hm
      · exact Or.inr (hmem v hm).1

/-- C5 witness: the amended statement evaluated on a batch holding one
unreadable and one readable file under order 1. -/
theorem c5_rows_follow_readable_images_witness :
    (process_videos_for_order true 1 ([] : List ImgFile) sampleDB = sampleDB) ∧
    (process_videos_for_order true 1 [unreadableImg, succeedingImg] sampleDB).images.length
      = sampleDB.images.length + readableCount [unreadableImg, succeedingImg] ∧
    (process_videos_for_order true 1 [unreadableImg, succeedingImg] sampleDB).videos.length
      = sampleDB.videos.length + readableCount [unreadableImg, succeedingImg] :=
  ⟨c5_rows_follow_readable_images.1 true 1 sampleDB,
   ((c5_rows_follow_readable_images.2 true 1 [unreadableImg, succeedingImg]
      sampleDB sampleOrder rfl)).1,
   ((c5_rows_follow_readable_images.2 true 1 [unreadableImg, succeedingImg]
      sampleDB sampleOrder rfl)).2.1⟩

/-- C6 counterexample: submit_feedback has no blank check at all: a request
with feedback_text equal to the empty string against an existing video is
not rejected before row creation, a Feedback row holding the blank text is
committed into a store that previously held no Feedback row. -/
theorem c6_blank_feedback_not_rejected :
    (submit_feedback true [] sampleFeedbackWorld
      { videoId := 1, feedbackText := "" } sampleDB).1.feedbacks.map
        (fun f => f.feedbackText) = [""] ∧
    sampleDB.feedbacks.length = 0 :=
  ⟨rfl, rfl⟩

/-- C6 amended: only the admin entry point rejects blank input before any
row: a blank prompt makes admin_regenerate_video return a 422 with the
store untouched; the feedback entry point performs no blank check and,
whenever the target video and its image exist, commits a Feedback row
carrying the given text, blank or not. -/
theorem c6_only_admin_validates_blank :
    (∀ imageId p fs (db : DB), pyStrip (p.getD "") = "" →
      admin_regenerate_video imageId p fs db
        = (db, .httpError 422 "Prompt is required")) ∧
    (∀ mock fs w payload (db : DB) parent image,
      db.findVideo payload.videoId = some parent →
      db.findImage parent.imageId = some image →
      (submit_feedback mock fs w payload db).1.feedbacks = db.feedbacks ++
        [{ id := db.nextFeedbackId, videoId := parent.id,
           feedbackText := payload.feedbackText,
           newPrompt := improve_prompt_with_feedback true parent.prompt
             payload.feedbackText w.reviseApi }]) := by
  constructor
  · intro imageId p fs db h
    unfold admin_regenerate_video
    dsimp only
    rw [h, if_pos rfl]
  · intro mock fs w payload db parent image h1 h2
    simp only [submit_feedback, h1, h2]
    split
    · rfl
    · split
      · rfl
      · split <;> rfl

/-- C6 witness: the amended statement evaluated at a blank admin prompt and
a blank feedback text against video 1 of sampleDB. -/
theorem c6_only_admin_validates_blank_witness :
    admin_regenerate_video 1 (some "") [] sampleDB
      = (sampleDB, .httpError 422 "Prompt is required") ∧
    (submit_feedback true [] sampleFeedbackWorld
      { videoId := 1, feedbackText := "" } sampleDB).1.feedbacks
      = sampleDB.feedbacks ++
        [{ id := sampleDB.nextFeedbackId, videoId := sampleVideo.id,
           feedbackText := "",
           newPrompt := improve_prompt_with_feedback true sampleVideo.prompt ""
             sampleFeedbackWorld.reviseApi }] :=
  ⟨c6_only_admin_validates_blank.1 1 (some "") [] sampleDB rfl,
   c6_only_admin_validates_blank.2 true [] sampleFeedbackWorld
     { videoId := 1, feedbackText := "" } sampleDB sampleVideo sampleImage rfl rfl⟩

/-- C7 counterexample: with the live generation raising for the first batch
image, its Video row is indeed failed and the batch proceeds to the next
image, but the UploadedImage mirror fields do not remain unset: video_url
is overwritten with null and video_generated_at is set to the completion
clock, because upload.py lines 247 to 249 run unconditionally. -/
theorem c7_failed_generation_writes_mirror :
    ((process_videos_for_order false 1 [failingImg, succeedingImg] sampleDB).findVideo 2).map
      (fun v => v.status) = some VStatus.failed ∧
    ((process_videos_for_order false 1 [failingImg, succeedingImg] sampleDB).findImage 2).map
      (fun r => r.videoGeneratedAt) = some (some 0) ∧
    ((process_videos_for_order false 1 [failingImg, succeedingImg] sampleDB).findImage 2).map
      (fun r => r.videoUrl) = some none ∧
    ((process_videos_for_order false 1 [failingImg, succeedingImg] sampleDB).findVideo 3).map
      (fun v => v.status) = some VStatus.succeeded :=
  ⟨rfl, rfl, rfl, rfl⟩

/-- C7 amended: when generation fails for a readable batch image, the
appended Video row has status failed, the batch is not aborted (later
files still contribute their rows), and no notification is emitted --- but
the image mirror is written even so: video_url is set to null and
video_generated_at is set to the current clock instead of remaining
unset. -/
theorem c7_failure_isolated_but_mirror_written (mock : Bool) (o : OrderRow)
    (f : ImgFile) (imgId : Nat) (p : String) (db : DB) (tid : Option String)
    (hg : batchGenerationResult mock imgId db.clock f = (.failed, none, tid)) :
    (processOneReadable mock o f imgId p db).videos = db.videos ++
      [{ id := db.nextVideoId, userId := o.userId, imageId := imgId, prompt := p,
         runwayJobId := tid, status := .failed, videoUrl := none,
         videoPath := none, parentVideoId := none, iteration := 1 }] ∧
    (processOneReadable mock o f imgId p db).images = db.images.map (fun r =>
      if r.id = imgId then { r with videoUrl := none, videoGeneratedAt := some db.clock }
      else r) ∧
    (processOneReadable mock o f imgId p db).notifications = db.notifications ∧
    ∀ rest, f.readable = true →
      (processImages mock o (f :: rest) db).images.length
        = db.images.length + 1 + readableCount rest := by
  refine ⟨?_, ?_, ?_, ?_⟩
  · unfold processOneReadable
    rw [hg]
    dsimp only
    rw [if_neg (by decide : ¬ (VStatus.failed = VStatus.succeeded))]
    rfl
  · unfold processOneReadable
    rw [hg]
    dsimp only
    rw [if_neg (by decide : ¬ (VStatus.failed = VStatus.succeeded))]
    simp [DB.updateImage]
  · unfold processOneReadable
    rw [hg]
    dsimp only
    rw [if_neg (by decide : ¬ (VStatus.failed = VStatus.succeeded))]
    rfl
  · intro rest hr
    obtain ⟨tail, _, _, _, himg, _⟩ := processImages_spec mock o (f :: rest) db
    have heq : readableCount (f :: rest) = 1 + readableCount rest := by
      simp [readableCount, List.filter_cons, hr]
      omega
    rw [himg, heq]
    omega

/-- C7 witness: the amended statement evaluated on the failing live image
over sampleDB, with an empty remainder of the batch. -/
theorem c7_failure_isolated_but_mirror_written_witness :
    (processOneReadable false sampleOrder failingImg 2 "drone orbit at dusk" sampleDB).videos
      = sampleDB.videos ++
        [{ id := 2, userId := some 7, imageId := 2, prompt := "drone orbit at dusk",
           runwayJobId := none, status := .failed, videoUrl := none,
           videoPath := none, parentVideoId := none, iteration := 1 }] ∧
    (processImages false sampleOrder [failingImg] sampleDB).images.length
      = sampleDB.images.length + 1 + readableCount [] := by
  have h := c7_failure_isolated_but_mirror_written false sampleOrder failingImg 2
    "drone orbit at dusk" sampleDB none rfl
  exact ⟨h.1, h.2.2.2 [] rfl⟩

/-- C4 counterexample: in the batch pipeline the Video row is not inserted
as queued before the external call: in mock mode the single inserted row
is born succeeded (upload.py line 201 computes a terminal status and line
233 inserts the row already carrying it), so no queued insertion ever
happens for it. -/
theorem c4_mock_batch_row_born_succeeded :
    (batchGenerationResult true 2 0 succeedingImg).1 = VStatus.succeeded ∧
    ((process_videos_for_order true 1 [succeedingImg] sampleDB).findVideo 2).map
      (fun v => v.status) = some VStatus.succeeded :=
  ⟨rfl, rfl⟩

/-- C4 amended: batch Video rows are inserted only after the generation
attempt, already carrying the computed terminal status (mock mode always
succeeded); the feedback endpoint likewise only ever appends a row born
succeeded; and the generate_video service used by admin regeneration sets
a tracked row to processing at the start of the call, before any remote
job id is obtained: a transport failure at submit time still produces the
write sequence processing then failed. -/
theorem c4_rows_born_terminal_processing_before_job :
    (∀ mock imgId c f,
      ((batchGenerationResult mock imgId c f).1 = .succeeded ∨
        (batchGenerationResult mock imgId c f).1 = .failed) ∧
      (mock = true → (batchGenerationResult mock imgId c f).1 = .succeeded)) ∧
    (∀ mock o f imgId p (db : DB), ∃ vrow : VideoRow,
      (processOneReadable mock o f imgId p db).videos = db.videos ++ [vrow] ∧
      vrow.status = (batchGenerationResult mock imgId db.clock f).1) ∧
    (∀ mock fs w payload (db : DB),
      ∀ v ∈ (submit_feedback mock fs w payload db).1.videos,
        v ∈ db.videos ∨ v.status = .succeeded) ∧
    (∀ w fs prompt ip op i (db : DB) e v, fsRead fs ip = some e →
      pyStrip prompt ≠ "" → i ≠ 0 → db.findVideo i = some v →
      w.submit = .transportErr →
      (generate_video w fs prompt ip op (some i) db).statusWrites
        = [.processing, .failed]) := by
  refine ⟨batchGenerationResult_status, ?_, ?_, ?_⟩
  · intro mock o f imgId p db
    obtain ⟨vrow, hv, hstat, _⟩ := processOneReadable_spec mock o f imgId p db
    exact ⟨vrow, hv, hstat⟩
  · intro mock fs w payload db v hv
    cases h1 : db.findVideo payload.videoId with
    | none =>
      rw [submit_feedback_nf_video mock fs w payload db h1] at hv
      exact Or.inl hv
    | some parent =>
      cases h2 : db.findImage parent.imageId with
      | none =>
        rw [submit_feedback_nf_image mock fs w payload db parent h1 h2] at hv
        exact Or.inl hv
      | some image =>
        rcases submit_feedback_videos_shape mock fs w payload db parent image h1 h2
          with hs | ⟨child, hs, hst, _, _⟩
        · rw [hs] at hv; exact Or.inl hv
        · rw [hs] at hv
          rcases List.mem_append.mp hv with hm | hm
          · exact Or.inl hm
          · rw [List.mem_singleton.mp hm]
            exact Or.inr hst
  · intro w fs prompt ip op i db e v h1 h2 h3 h4 h5
    exact (generate_video_submit_failure w fs prompt ip op i db e v h1 h2 h3 h4 h5).1

/-- C4 witness: the amended statement evaluated on a mock batch insertion
and on a live submit-failure call tracking video 1 of sampleDB. -/
theorem c4_rows_born_terminal_processing_before_job_witness :
    (∃ vrow : VideoRow,
      (processOneReadable true sampleOrder succeedingImg 2 "p" sampleDB).videos
        = sampleDB.videos ++ [vrow] ∧
      vrow.status = (batchGenerationResult true 2 sampleDB.clock succeedingImg).1) ∧
    (generate_video genWorldSubmitFail regenFs "p" "uploads/house.jpg"
      "videos/out.mp4" (some 1) sampleDB).statusWrites = [.processing, .failed] :=
  ⟨c4_rows_born_terminal_processing_before_job.2.1 true sampleOrder succeedingImg 2 "p" sampleDB,
   c4_rows_born_terminal_processing_before_job.2.2.2 genWorldSubmitFail regenFs "p"
     "uploads/house.jpg" "videos/out.mp4" 1 sampleDB
     { path := "uploads/house.jpg", content := [1], dims := some (4, 3) }
     sampleVideo rfl (by decide) (by decide) rfl rfl⟩

/-- C8 counterexample: generate_cinematic_prompt_from_image can raise: an
unreadable image path (the encode on prompt_generator.py line 35 is
outside the try block) or missing credentials (lines 27 to 31) abort with
an error instead of returning the fallback string, so the pair of prompt
functions does not satisfy never-raises for every input. -/
theorem c8_describe_raises_outside_guard :
    (∃ msg, generate_cinematic_prompt_from_image true false (some "ok") = .error msg) ∧
    (∃ msg, generate_cinematic_prompt_from_image false true none = .error msg) :=
  ⟨⟨_, rfl⟩, ⟨_, rfl⟩⟩

/-- C8 amended: improve_prompt_with_feedback is total and on any call
failure (or missing credentials) returns the deterministic merge of the
original prompt and the feedback; generate_cinematic_prompt_from_image
returns the fixed generic fallback when the guarded vision call fails, but
raises when credentials are missing or the image file is unreadable, those
checks running before the guarded call. -/
theorem c8_deterministic_fallbacks :
    (∀ o f a, improve_prompt_with_feedback false o f a = mergedFallback o f) ∧
    (∀ o f, improve_prompt_with_feedback true o f none = mergedFallback o f) ∧
    (generate_cinematic_prompt_from_image true true none = .ok fallbackCinematicPrompt) ∧
    (∀ r a, generate_cinematic_prompt_from_image false r a
      = .error "Missing OpenAI credentials. Please set OPENAI_API_KEY and OPENAI_PROJECT.") ∧
    (∀ a, generate_cinematic_prompt_from_image true false a
      = .error "image file is not readable") :=
  ⟨fun _ _ _ => rfl, fun _ _ => rfl, rfl, fun _ _ => rfl, fun _ => rfl⟩

/-- C9 counterexample: iterations for one image need not form a strictly
increasing chain: image 1 of sampleDB already has an iteration-1 video,
and admin_upload_final_video inserts another iteration-1 row for it
unconditionally, leaving two rows at iteration 1. -/
theorem c9_duplicate_iteration_one :
    (((admin_upload_final_video 7 { ok := true, sharedLinkUrl := "https://dbx/x?dl=0" }
        sampleDB).1.videos.filter (fun v => v.imageId = 1)).map (fun v => v.iteration))
      = [1, 1] ∧
    ¬ List.Chain' (· < ·) [1, 1] :=
  ⟨rfl, by simp [List.chain'_cons]⟩

/-- C9 amended: all four Video-creating operations preserve the invariant
that every stored video has iteration at least 1 (batch, status override
and final-video upload insert at iteration 1, feedback at parent iteration
plus one), and the latest-video query used by the admin endpoints selects
a row of the image that dominates every other row of that image by
iteration, ties broken by highest id --- but iterations are not strictly
increasing, since the final-video upload duplicates iteration 1. -/
theorem c9_iteration_floor_and_latest_choice :
    (∀ mock orderId files db, itersPos db →
      itersPos (process_videos_for_order mock orderId files db)) ∧
    (∀ mock fs w payload db, itersPos db →
      itersPos (submit_feedback mock fs w payload db).1) ∧
    (∀ imageId ps db, itersPos db →
      itersPos (admin_update_order_status imageId ps db).1) ∧
    (∀ userId w db, itersPos db →
      itersPos (admin_upload_final_video userId w db).1) ∧
    (∀ db imgId v, latestVideoFor db imgId = some v →
      v ∈ db.videos ∧ v.imageId = imgId ∧
      ∀ w ∈ db.videos, w.imageId = imgId →
        (w.iteration < v.iteration ∨ (w.iteration = v.iteration ∧ w.id ≤ v.id))) :=
  ⟨itersPos_process_videos, itersPos_submit_feedback, itersPos_admin_update,
   itersPos_admin_final, latestVideoFor_spec⟩

/-- C9 witness: the amended statement evaluated on the duplicate-creating
final-video upload over sampleDB and the latest-video query for image 1. -/
theorem c9_iteration_floor_and_latest_choice_witness :
    itersPos (admin_upload_final_video 7 { ok := true, sharedLinkUrl := "x" } sampleDB).1 ∧
    sampleVideo ∈ sampleDB.videos :=
  ⟨c9_iteration_floor_and_latest_choice.2.2.2.1 7 { ok := true, sharedLinkUrl := "x" }
     sampleDB (by intro v hv; rw [List.mem_singleton.mp hv]; decide),
   (c9_iteration_floor_and_latest_choice.2.2.2.2 sampleDB 1 sampleVideo rfl).1⟩

/-- C10: submit_feedback is not atomic on error: once the parent video and
its source image exist, the Feedback row is committed before image
preparation, and when the preparation read fails (as it always does on a
store whose filesystem has no file named by the data-URL string) the call
returns an error while the committed Feedback row persists and no child
Video row exists. -/
theorem c10_feedback_commit_not_atomic (mock : Bool) (fs : FileSystem)
    (w : FeedbackWorld) (payload : FeedbackPayload) (db : DB)
    (parent : VideoRow) (image : ImageRow)
    (h1 : db.findVideo payload.videoId = some parent)
    (h2 : db.findImage parent.imageId = some image)
    (h3 : fsRead fs ("data:image/jpeg;base64," ++ base64Encode image.content) = none) :
    (submit_feedback mock fs w payload db).2.isOk = false ∧
    (submit_feedback mock fs w payload db).1.feedbacks = db.feedbacks ++
      [{ id := db.nextFeedbackId, videoId := parent.id,
         feedbackText := payload.feedbackText,
         newPrompt := improve_prompt_with_feedback true parent.prompt
           payload.feedbackText w.reviseApi }] ∧
    (submit_feedback mock fs w payload db).1.videos = db.videos := by
  simp only [submit_feedback, h1, h2, h3]
  simp [Api.isOk]

/-- C10 witness: the statement evaluated at feedback "make it brighter"
against video 1 of sampleDB over an empty filesystem. -/
theorem c10_feedback_commit_not_atomic_witness :
    (submit_feedback true [] sampleFeedbackWorld
      { videoId := 1, feedbackText := "make it brighter" } sampleDB).2.isOk = false ∧
    (submit_feedback true [] sampleFeedbackWorld
      { videoId := 1, feedbackText := "make it brighter" } sampleDB).1.feedbacks
      = sampleDB.feedbacks ++
        [{ id := sampleDB.nextFeedbackId, videoId := sampleVideo.id,
           feedbackText := "make it brighter",
           newPrompt := improve_prompt_with_feedback true sampleVideo.prompt
             "make it brighter" sampleFeedbackWorld.reviseApi }] ∧
    (submit_feedback true [] sampleFeedbackWorld
      { videoId := 1, feedbackText := "make it brighter" } sampleDB).1.videos
      = sampleDB.videos :=
  c10_feedback_commit_not_atomic true [] sampleFeedbackWorld
    { videoId := 1, feedbackText := "make it brighter" } sampleDB
    sampleVideo sampleImage rfl rfl rfl

end CineTour
